import Mathlib

/-!
Shallow embedding of the CLBlast tuning-parameter database engine
(src/src/database/database.cpp): the data model for tuning entries, the
nested fallback search (`Database::Search`), the constructor that combines
the overlay, optional Apple-CPU special-case, and built-in knowledge bases
(`Database::Database`), the vendor-name normalization loop, and the
accessors `GetDefines` and `GetParameterNames`.
-/

namespace clblast

/-- The kernel precision enumeration, with the `Any` wildcard
(`Precision::kAny` in the source). -/
inductive Precision where
  | Half
  | Single
  | Double
  | ComplexSingle
  | ComplexDouble
  | Any
deriving DecidableEq, Repr

/-- Modelled from the spec: the `Parameters` container (declared in
database.hpp, a header outside src/) maps parameter names to integer
values; keys are unique and iteration order is insertion order, so it is
embedded as an ordered association list. -/
abbrev Parameters := List (String × Nat)

/-- One device record of a tuning entry: a device name and its tuned
parameter set. -/
structure DeviceRecord where
  name : String
  parameters : Parameters
deriving DecidableEq, Repr

/-- One vendor record of a tuning entry: vendor name, device type, and an
ordered list of device records. -/
structure VendorRecord where
  name : String
  type : String
  devices : List DeviceRecord
deriving DecidableEq, Repr

/-- One entry of a knowledge base: kernel name, precision, and an ordered
list of vendor records (`Database::DatabaseEntry`). -/
structure DatabaseEntry where
  kernel : String
  precision : Precision
  vendors : List VendorRecord
deriving DecidableEq, Repr

/-- `Database::kDeviceVendorAll`: the vendor-name wildcard. -/
def kDeviceVendorAll : String := "default"

/-- Modelled from the spec: `database::kDeviceTypeAll`, the device-type
wildcard constant, is declared in a header outside src/; the spec names it
as the `default` device-type wildcard. -/
def kDeviceTypeAll : String := "default"

/-- `Database::kVendorNames`: alternative names for some OpenCL vendors
(the `std::unordered_map` is embedded as a list in source order; the loop
over it tests keys by equality, so iteration order is immaterial). -/
def kVendorNames : List (String × String) :=
  [ ("Intel(R) Corporation", "Intel"),
    ("GenuineIntel", "Intel"),
    ("Advanced Micro Devices, Inc.", "AMD"),
    ("NVIDIA Corporation", "NVIDIA") ]

/-- The vendor-normalization loop of the constructor: for each table
entry, if the current vendor string equals the key, replace it by the
short name. -/
def normalizeVendor (device_vendor : String) : String :=
  kVendorNames.foldl
    (fun acc combination => if acc = combination.1 then combination.2 else acc)
    device_vendor

/-- The device identity consumed by the constructor: reported type,
vendor, name and capability (extension) strings, all opaque strings. -/
structure Device where
  type : String
  vendor : String
  name : String
  capabilities : String
deriving DecidableEq, Repr

/-- Whether a device record matches the requested device:
`device.name == this_device || device.name == "default"`. -/
def deviceMatchB (this_device : String) (d : DeviceRecord) : Bool :=
  d.name = this_device || d.name = "default"

/-- Whether a vendor record matches the requested vendor and device type,
each axis independently exact-or-wildcard. -/
def vendorMatchB (this_type this_vendor : String) (v : VendorRecord) : Bool :=
  (v.name = this_vendor || v.name = kDeviceVendorAll) &&
  (v.type = this_type || v.type = kDeviceTypeAll)

/-- Whether a database entry matches the requested kernel and precision
(exact kernel, exact-or-`Any` precision). -/
def entryMatchB (this_kernel : String) (this_precision : Precision)
    (db : DatabaseEntry) : Bool :=
  db.kernel = this_kernel &&
  (db.precision = this_precision || db.precision = Precision.Any)

/-- Innermost loop of `Database::Search`: scan the device records in
order; return the parameters of the first record matching the requested
device name or the `"default"` wildcard. -/
def searchDevices (this_device : String) : List DeviceRecord → Option Parameters
  | [] => none
  | d :: rest =>
    if deviceMatchB this_device d then some d.parameters
    else searchDevices this_device rest

/-- Middle loop of `Database::Search`: scan the vendor records in order;
for each matching record scan its devices, and if that inner scan fails
fall through to the next vendor record (the loop has no early exit on
failure). -/
def searchVendors (this_type this_vendor this_device : String) :
    List VendorRecord → Option Parameters
  | [] => none
  | v :: rest =>
    if vendorMatchB this_type this_vendor v then
      match searchDevices this_device v.devices with
      | some p => some p
      | none => searchVendors this_type this_vendor this_device rest
    else searchVendors this_type this_vendor this_device rest

/-- `Database::Search`: scan the entries in order; for each entry matching
the requested kernel and precision scan its vendors, and if that scan
fails fall through to the next entry; return `none` (a null
`ParametersPtr`) when no entry yields a complete chain. -/
def Search (this_kernel this_type this_vendor this_device : String)
    (this_precision : Precision) : List DatabaseEntry → Option Parameters
  | [] => none
  | db :: rest =>
    if entryMatchB this_kernel this_precision db then
      match searchVendors this_type this_vendor this_device db.vendors with
      | some p => some p
      | none => Search this_kernel this_type this_vendor this_device this_precision rest
    else Search this_kernel this_type this_vendor this_device this_precision rest

/-- The Apple OpenCL marker extension tested by the constructor. -/
def appleExtension : String := "cl_APPLE_SetMemObjectDestructor"

/-- Character-list prefix test, used to embed `std::string::find`. -/
def hasPrefixL : List Char → List Char → Bool
  | [], _ => true
  | _ :: _, [] => false
  | a :: as, b :: bs => a = b && hasPrefixL as bs

/-- Character-list substring test, used to embed `std::string::find`. -/
def hasSubL (needle : List Char) : List Char → Bool
  | [] => hasPrefixL needle []
  | c :: rest => hasPrefixL needle (c :: rest) || hasSubL needle rest

/-- `extensions.find(needle) != std::string::npos`: substring containment. -/
def strContainsSub (hay needle : String) : Bool :=
  hasSubL needle.data hay.data

/-- The ordered candidate list built by the constructor:
`[overlay, built-in]`, with the Apple-CPU fallback knowledge base
prepended when the platform is Apple, the device type is `"CPU"`, and the
capability strings contain the marker extension. The built-in `database`
and `apple_cpu_fallback` tables are literal data from headers outside
src/ and are passed as parameters; `apple_platform` embeds the
`__APPLE__`/`__MACOSX` preprocessor condition. -/
def candidateDatabases (apple_platform : Bool) (device : Device)
    (overlay builtin fallback : List DatabaseEntry) : List (List DatabaseEntry) :=
  let databases := [overlay, builtin]
  if apple_platform && decide (device.type = "CPU")
      && strContainsSub device.capabilities appleExtension then
    fallback :: databases
  else databases

/-- The constructor loop over the candidate knowledge bases: return the
first search result that is non-null. -/
def searchAll (this_kernel this_type this_vendor this_device : String)
    (this_precision : Precision) : List (List DatabaseEntry) → Option Parameters
  | [] => none
  | db :: rest =>
    match Search this_kernel this_type this_vendor this_device this_precision db with
    | some p => some p
    | none => searchAll this_kernel this_type this_vendor this_device this_precision rest

/-- `std::map::insert` of one key/value pair: insert-if-absent. -/
def insertParam (ps : Parameters) (kv : String × Nat) : Parameters :=
  if ps.any (fun p => p.1 = kv.1) then ps else ps ++ [kv]

/-- `parameters_->insert(result->begin(), result->end())`: insert every
pair of the found parameter set, insert-if-absent, in iteration order. -/
def insertAll (ps src : Parameters) : Parameters :=
  src.foldl insertParam ps

/-- The status code thrown when every candidate knowledge base fails. -/
inductive StatusCode where
  | kDatabaseError
deriving DecidableEq, Repr

/-- `Database::Database`: normalize the vendor name, build the candidate
list, search the candidates in order, merge the first hit into the
(initially empty) parameter map, and throw `kDatabaseError` when every
candidate fails. -/
def databaseConstruct (apple_platform : Bool) (device : Device)
    (kernel_name : String) (precision : Precision)
    (overlay builtin fallback : List DatabaseEntry) :
    Except StatusCode Parameters :=
  let device_vendor := normalizeVendor device.vendor
  let databases := candidateDatabases apple_platform device overlay builtin fallback
  match searchAll kernel_name device.type device_vendor device.name precision databases with
  | some p => Except.ok (insertAll [] p)
  | none => Except.error StatusCode.kDatabaseError

/-- Modelled from the spec: `ToString` for a parameter value (declared in
utilities.hpp, outside src/) renders the integer in decimal. -/
def paramToString (v : Nat) : String := Nat.repr v

/-- `Database::GetDefines`: accumulate one `#define NAME VALUE` line per
parameter, newline-terminated, in iteration order. -/
def GetDefines (ps : Parameters) : String :=
  ps.foldl
    (fun defines parameter =>
      defines ++ "#define " ++ parameter.1 ++ " " ++ paramToString parameter.2 ++ "\n")
    ""

/-- `Database::GetParameterNames`: the parameter names, same order. -/
def GetParameterNames (ps : Parameters) : List String :=
  ps.foldl (fun acc parameter => acc ++ [parameter.1]) []

/-- A knowledge base contains a complete kernel → vendor → device chain for
the requested target. -/
def hasChain (this_kernel this_type this_vendor this_device : String)
    (this_precision : Precision) (this_database : List DatabaseEntry) : Prop :=
  ∃ db ∈ this_database, entryMatchB this_kernel this_precision db = true ∧
    ∃ v ∈ db.vendors, vendorMatchB this_type this_vendor v = true ∧
      ∃ d ∈ v.devices, deviceMatchB this_device d = true

/-! ## Helper lemmas -/

theorem searchDevices_eq_none_iff (this_device : String) (vs : List DeviceRecord) :
    searchDevices this_device vs = none ↔
      ∀ d ∈ vs, deviceMatchB this_device d = false := by
  induction vs with
  | nil => simp [searchDevices]
  | cons hd tl ih =>
    by_cases hm : deviceMatchB this_device hd = true
    · simp [searchDevices, hm]
    · simp only [Bool.not_eq_true] at hm
      simp [searchDevices, hm, ih]

theorem searchVendors_eq_none_iff (this_type this_vendor this_device : String)
    (vs : List VendorRecord) :
    searchVendors this_type this_vendor this_device vs = none ↔
      ∀ v ∈ vs, vendorMatchB this_type this_vendor v = true →
        searchDevices this_device v.devices = none := by
  induction vs with
  | nil => simp [searchVendors]
  | cons hd tl ih =>
    by_cases hm : vendorMatchB this_type this_vendor hd = true
    · cases hdev : searchDevices this_device hd.devices with
      | some p => simp [searchVendors, hm, hdev]
      | none => simp [searchVendors, hm, hdev, ih]
    · simp only [Bool.not_eq_true] at hm
      simp [searchVendors, hm, ih]

theorem Search_eq_none_iff (this_kernel this_type this_vendor this_device : String)
    (this_precision : Precision) (dbs : List DatabaseEntry) :
    Search this_kernel this_type this_vendor this_device this_precision dbs = none ↔
      ∀ db ∈ dbs, entryMatchB this_kernel this_precision db = true →
        searchVendors this_type this_vendor this_device db.vendors = none := by
  induction dbs with
  | nil => simp [Search]
  | cons hd tl ih =>
    by_cases hm : entryMatchB this_kernel this_precision hd = true
    · cases hv : searchVendors this_type this_vendor this_device hd.vendors with
      | some p => simp [Search, hm, hv]
      | none => simp [Search, hm, hv, ih]
    · simp only [Bool.not_eq_true] at hm
      simp [Search, hm, ih]

theorem Search_eq_none_iff_not_hasChain (this_kernel this_type this_vendor
    this_device : String) (this_precision : Precision) (dbs : List DatabaseEntry) :
    Search this_kernel this_type this_vendor this_device this_precision dbs = none ↔
      ¬ hasChain this_kernel this_type this_vendor this_device this_precision dbs := by
  rw [Search_eq_none_iff, hasChain]
  constructor
  · rintro h ⟨db, hdb, hentry, v, hv, hvm, d, hd, hdm⟩
    have := (searchVendors_eq_none_iff _ _ _ _).mp (h db hdb hentry) v hv hvm
    have := (searchDevices_eq_none_iff _ _).mp this d hd
    simp [hdm] at this
  · intro h db hdb hentry
    rw [searchVendors_eq_none_iff]
    intro v hv hvm
    rw [searchDevices_eq_none_iff]
    intro d hd
    by_cases hdm : deviceMatchB this_device d = true
    · exact absurd ⟨db, hdb, hentry, v, hv, hvm, d, hd, hdm⟩ h
    · simpa using hdm

theorem searchDevices_of_find (this_device : String) (vs : List DeviceRecord)
    (dr : DeviceRecord) (h : vs.find? (deviceMatchB this_device) = some dr) :
    searchDevices this_device vs = some dr.parameters := by
  induction vs with
  | nil => simp at h
  | cons hd tl ih =>
    by_cases hm : deviceMatchB this_device hd = true
    · rw [List.find?_cons_of_pos _ hm] at h
      simp only [Option.some.injEq] at h
      subst h
      simp [searchDevices, hm]
    · rw [List.find?_cons_of_neg _ hm] at h
      simp only [Bool.not_eq_true] at hm
      simp [searchDevices, hm, ih h]

theorem searchVendors_of_find (this_type this_vendor this_device : String)
    (vs : List VendorRecord) (vr : VendorRecord) (p : Parameters)
    (h : vs.find? (vendorMatchB this_type this_vendor) = some vr)
    (hdev : searchDevices this_device vr.devices = some p) :
    searchVendors this_type this_vendor this_device vs = some p := by
  induction vs with
  | nil => simp at h
  | cons hd tl ih =>
    by_cases hm : vendorMatchB this_type this_vendor hd = true
    · rw [List.find?_cons_of_pos _ hm] at h
      simp only [Option.some.injEq] at h
      subst h
      simp [searchVendors, hm, hdev]
    · rw [List.find?_cons_of_neg _ hm] at h
      simp only [Bool.not_eq_true] at hm
      simp [searchVendors, hm, ih h]

theorem Search_of_find (this_kernel this_type this_vendor this_device : String)
    (this_precision : Precision) (dbs : List DatabaseEntry) (e : DatabaseEntry)
    (p : Parameters)
    (h : dbs.find? (entryMatchB this_kernel this_precision) = some e)
    (hv : searchVendors this_type this_vendor this_device e.vendors = some p) :
    Search this_kernel this_type this_vendor this_device this_precision dbs = some p := by
  induction dbs with
  | nil => simp at h
  | cons hd tl ih =>
    by_cases hm : entryMatchB this_kernel this_precision hd = true
    · rw [List.find?_cons_of_pos _ hm] at h
      simp only [Option.some.injEq] at h
      subst h
      simp [Search, hm, hv]
    · rw [List.find?_cons_of_neg _ hm] at h
      simp only [Bool.not_eq_true] at hm
      simp [Search, hm, ih h]

theorem searchVendors_append_of_none (this_type this_vendor this_device : String)
    (vs1 vs2 : List VendorRecord)
    (h : searchVendors this_type this_vendor this_device vs1 = none) :
    searchVendors this_type this_vendor this_device (vs1 ++ vs2) =
      searchVendors this_type this_vendor this_device vs2 := by
  induction vs1 with
  | nil => simp
  | cons hd tl ih =>
    by_cases hm : vendorMatchB this_type this_vendor hd = true
    · cases hdev : searchDevices this_device hd.devices with
      | some p => simp [searchVendors, hm, hdev] at h
      | none =>
        simp only [searchVendors, hm, hdev, if_pos] at h ⊢
        exact ih h
    · simp only [Bool.not_eq_true] at hm
      simp only [searchVendors, hm] at h ⊢
      simp only [Bool.false_eq_true, if_false] at h ⊢
      exact ih h

theorem searchAll_eq_none_iff (this_kernel this_type this_vendor this_device : String)
    (this_precision : Precision) (dbs : List (List DatabaseEntry)) :
    searchAll this_kernel this_type this_vendor this_device this_precision dbs = none ↔
      ∀ db ∈ dbs,
        Search this_kernel this_type this_vendor this_device this_precision db = none := by
  induction dbs with
  | nil => simp [searchAll]
  | cons hd tl ih =>
    cases hs : Search this_kernel this_type this_vendor this_device this_precision hd with
    | some p => simp [searchAll, hs]
    | none => simp [searchAll, hs, ih]

theorem insertAll_of_disjoint (ps : Parameters) :
    ∀ acc : Parameters, (∀ kv ∈ ps, ∀ a ∈ acc, a.1 ≠ kv.1) →
      (ps.map Prod.fst).Nodup → insertAll acc ps = acc ++ ps := by
  induction ps with
  | nil => intro acc _ _; simp [insertAll]
  | cons kv rest ih =>
    intro acc hdisj hnodup
    have hany : acc.any (fun p => p.1 = kv.1) = false := by
      simp only [List.any_eq_false, decide_eq_true_eq]
      intro a ha
      exact hdisj kv (by simp) a ha
    have hstep : insertAll acc (kv :: rest) = insertAll (acc ++ [kv]) rest := by
      simp [insertAll, insertParam, hany]
    rw [hstep, ih (acc ++ [kv])]
    · simp
    · intro k hk a ha
      rcases List.mem_append.mp ha with ha1 | ha1
      · exact hdisj k (by simp [hk]) a ha1
      · simp only [List.mem_singleton] at ha1
        subst ha1
        simp only [List.map_cons, List.nodup_cons, List.mem_map] at hnodup
        intro hcontra
        exact hnodup.1 ⟨k, hk, hcontra.symm⟩
    · simp only [List.map_cons, List.nodup_cons] at hnodup
      exact hnodup.2

theorem insertAll_nil_of_nodup (ps : Parameters) (h : (ps.map Prod.fst).Nodup) :
    insertAll [] ps = ps := by
  simpa using insertAll_of_disjoint ps [] (by simp) h

theorem databaseConstruct_eq (apple_platform : Bool) (device : Device)
    (kernel_name : String) (precision : Precision)
    (overlay builtin fallback : List DatabaseEntry) :
    databaseConstruct apple_platform device kernel_name precision overlay builtin fallback
      = match searchAll kernel_name device.type (normalizeVendor device.vendor) device.name
          precision (candidateDatabases apple_platform device overlay builtin fallback) with
        | some p => Except.ok (insertAll [] p)
        | none => Except.error StatusCode.kDatabaseError := rfl

/-! ## Claims -/

/-- C1, counterexample: a knowledge base whose first entry matches the
requested kernel and precision but whose vendor scan fails, followed by a
second matching entry with a complete chain. The first matching entry does
not commit the search: `Search` returns the second entry's parameters
rather than `none`. -/
theorem search_commitment_counterexample :
    entryMatchB "K" Precision.Single
        ⟨"K", Precision.Single, [⟨"W", "GPU", [⟨"D", [("X", 1)]⟩]⟩]⟩ = true ∧
    searchVendors "GPU" "V" "D" [⟨"W", "GPU", [⟨"D", [("X", 1)]⟩]⟩] = none ∧
    Search "K" "GPU" "V" "D" Precision.Single
        [⟨"K", Precision.Single, [⟨"W", "GPU", [⟨"D", [("X", 1)]⟩]⟩]⟩,
         ⟨"K", Precision.Single, [⟨"default", "default", [⟨"default", [("Y", 2)]⟩]⟩]⟩]
      = some [("Y", 2)] :=
  ⟨by decide, by decide, by decide⟩

/-- C1, amended: the first kernel/precision match does not commit the
search. When a matching entry's vendor scan fails, the Resolver continues
with the remaining entries, and when a matching vendor record's device
scan fails, the vendor scan continues with the remaining vendor records;
`NotFound` is returned exactly when no entry contains a complete
kernel → vendor → device chain (see `Search_eq_none_iff_not_hasChain`). -/
theorem search_no_commitment :
    (∀ (this_kernel this_type this_vendor this_device : String)
        (this_precision : Precision) (e : DatabaseEntry) (rest : List DatabaseEntry),
      entryMatchB this_kernel this_precision e = true →
      searchVendors this_type this_vendor this_device e.vendors = none →
      Search this_kernel this_type this_vendor this_device this_precision (e :: rest)
        = Search this_kernel this_type this_vendor this_device this_precision rest) ∧
    (∀ (this_type this_vendor this_device : String) (vr : VendorRecord)
        (rest : List VendorRecord),
      vendorMatchB this_type this_vendor vr = true →
      searchDevices this_device vr.devices = none →
      searchVendors this_type this_vendor this_device (vr :: rest)
        = searchVendors this_type this_vendor this_device rest) := by
  constructor
  · intro k t v d p e rest hm hv
    simp [Search, hm, hv]
  · intro t v d vr rest hm hd
    simp [searchVendors, hm, hd]

/-- Witness for `search_no_commitment` at concrete inputs. -/
theorem search_no_commitment_witness :
    Search "K" "GPU" "V" "D" Precision.Single
        [⟨"K", Precision.Single, [⟨"W", "GPU", [⟨"D", [("X", 1)]⟩]⟩]⟩,
         ⟨"K", Precision.Single, [⟨"default", "default", [⟨"default", [("Y", 2)]⟩]⟩]⟩]
      = Search "K" "GPU" "V" "D" Precision.Single
          [⟨"K", Precision.Single, [⟨"default", "default", [⟨"default", [("Y", 2)]⟩]⟩]⟩] ∧
    searchVendors "GPU" "V" "D"
        [⟨"default", "GPU", [⟨"D2", []⟩]⟩, ⟨"default", "default", [⟨"default", [("Z", 3)]⟩]⟩]
      = searchVendors "GPU" "V" "D" [⟨"default", "default", [⟨"default", [("Z", 3)]⟩]⟩] :=
  ⟨search_no_commitment.1 "K" "GPU" "V" "D" Precision.Single
      ⟨"K", Precision.Single, [⟨"W", "GPU", [⟨"D", [("X", 1)]⟩]⟩]⟩
      [⟨"K", Precision.Single, [⟨"default", "default", [⟨"default", [("Y", 2)]⟩]⟩]⟩]
      (by decide) (by decide),
   search_no_commitment.2 "GPU" "V" "D" ⟨"default", "GPU", [⟨"D2", []⟩]⟩
      [⟨"default", "default", [⟨"default", [("Z", 3)]⟩]⟩] (by decide) (by decide)⟩

/-- C2: the Resolver performs three nested in-order scans. If the first
entry matching the requested kernel and exact-or-`Any` precision is `e`,
the first vendor record of `e` matching the requested vendor name and
device type (each axis exact-or-wildcard) is `vr`, and the first device
record of `vr` matching the requested device name or `"default"` is `dr`,
then `Search` returns `dr`'s parameter set. -/
theorem search_three_nested_scans (this_kernel this_type this_vendor this_device : String)
    (this_precision : Precision) (dbs : List DatabaseEntry) (e : DatabaseEntry)
    (vr : VendorRecord) (dr : DeviceRecord)
    (he : dbs.find? (entryMatchB this_kernel this_precision) = some e)
    (hv : e.vendors.find? (vendorMatchB this_type this_vendor) = some vr)
    (hd : vr.devices.find? (deviceMatchB this_device) = some dr) :
    Search this_kernel this_type this_vendor this_device this_precision dbs
      = some dr.parameters :=
  Search_of_find _ _ _ _ _ _ _ _ he
    (searchVendors_of_find _ _ _ _ _ _ hv (searchDevices_of_find _ _ _ hd))

/-- Witness for `search_three_nested_scans` at a concrete knowledge base. -/
theorem search_three_nested_scans_witness :
    Search "Xgemm" "GPU" "NVIDIA" "Tesla" Precision.Single
        [⟨"Xgemm", Precision.Single,
          [⟨"NVIDIA", "GPU", [⟨"Tesla", [("MWG", 64)]⟩, ⟨"default", [("MWG", 32)]⟩]⟩]⟩]
      = some [("MWG", 64)] :=
  search_three_nested_scans "Xgemm" "GPU" "NVIDIA" "Tesla" Precision.Single
    [⟨"Xgemm", Precision.Single,
      [⟨"NVIDIA", "GPU", [⟨"Tesla", [("MWG", 64)]⟩, ⟨"default", [("MWG", 32)]⟩]⟩]⟩]
    ⟨"Xgemm", Precision.Single,
      [⟨"NVIDIA", "GPU", [⟨"Tesla", [("MWG", 64)]⟩, ⟨"default", [("MWG", 32)]⟩]⟩]⟩
    ⟨"NVIDIA", "GPU", [⟨"Tesla", [("MWG", 64)]⟩, ⟨"default", [("MWG", 32)]⟩]⟩
    ⟨"Tesla", [("MWG", 64)]⟩
    (by decide) (by decide) (by decide)

/-- C3: when the special-case condition does not hold, the candidate list
is `[overlay, built-in]`; so when both the overlay and the built-in
knowledge base contain a matching chain, the constructor returns the
overlay's parameters — the first successful candidate wins. -/
theorem overlay_priority (apple_platform : Bool) (device : Device)
    (kernel_name : String) (precision : Precision)
    (overlay builtin fallback : List DatabaseEntry) (ps qs : Parameters)
    (hspecial : (apple_platform && decide (device.type = "CPU")
        && strContainsSub device.capabilities appleExtension) = false)
    (hov : Search kernel_name device.type (normalizeVendor device.vendor)
        device.name precision overlay = some ps)
    (hbi : Search kernel_name device.type (normalizeVendor device.vendor)
        device.name precision builtin = some qs)
    (hnodup : (ps.map Prod.fst).Nodup) :
    databaseConstruct apple_platform device kernel_name precision overlay builtin fallback
      = Except.ok ps := by
  rw [databaseConstruct_eq]
  have hc : candidateDatabases apple_platform device overlay builtin fallback
      = [overlay, builtin] := by
    simp [candidateDatabases, hspecial]
  rw [hc]
  simp [searchAll, hov, insertAll_nil_of_nodup ps hnodup]

/-- Witness for `overlay_priority` at a concrete target where the overlay
and the built-in knowledge base both contain a matching chain. -/
theorem overlay_priority_witness :
    databaseConstruct false ⟨"GPU", "SomeVendor", "Dev", ""⟩ "K" Precision.Single
        [⟨"K", Precision.Single, [⟨"default", "default", [⟨"default", [("P", 1)]⟩]⟩]⟩]
        [⟨"K", Precision.Single, [⟨"default", "default", [⟨"default", [("P", 2)]⟩]⟩]⟩]
        []
      = Except.ok [("P", 1)] :=
  overlay_priority false ⟨"GPU", "SomeVendor", "Dev", ""⟩ "K" Precision.Single
    [⟨"K", Precision.Single, [⟨"default", "default", [⟨"default", [("P", 1)]⟩]⟩]⟩]
    [⟨"K", Precision.Single, [⟨"default", "default", [⟨"default", [("P", 2)]⟩]⟩]⟩]
    [] [("P", 1)] [("P", 2)] (by decide) (by decide) (by decide) (by decide)

/-- C4: if the device type is `"CPU"` and its capability strings contain
the marker extension, the special-case knowledge base is prepended to the
candidate list and (when its chain matches) its parameters win even though
the overlay and built-in bases also match; when the capability string is
absent, the candidate list is unchanged. -/
theorem apple_cpu_special_case :
    (∀ (device : Device) (kernel_name : String) (precision : Precision)
        (overlay builtin fallback : List DatabaseEntry) (ps qs rs : Parameters),
      device.type = "CPU" →
      strContainsSub device.capabilities appleExtension = true →
      Search kernel_name device.type (normalizeVendor device.vendor) device.name precision
          fallback = some ps →
      Search kernel_name device.type (normalizeVendor device.vendor) device.name precision
          overlay = some qs →
      Search kernel_name device.type (normalizeVendor device.vendor) device.name precision
          builtin = some rs →
      (ps.map Prod.fst).Nodup →
      candidateDatabases true device overlay builtin fallback
          = [fallback, overlay, builtin] ∧
      databaseConstruct true device kernel_name precision overlay builtin fallback
          = Except.ok ps) ∧
    (∀ (apple_platform : Bool) (device : Device)
        (overlay builtin fallback : List DatabaseEntry),
      strContainsSub device.capabilities appleExtension = false →
      candidateDatabases apple_platform device overlay builtin fallback
          = [overlay, builtin]) := by
  constructor
  · intro device k prec o b f ps qs rs htype hcap hf ho hb hnodup
    have hc : candidateDatabases true device o b f = [f, o, b] := by
      simp [candidateDatabases, htype, hcap]
    refine ⟨hc, ?_⟩
    rw [databaseConstruct_eq, hc]
    simp [searchAll, hf, insertAll_nil_of_nodup ps hnodup]
  · intro apple device o b f hcap
    simp [candidateDatabases, hcap]

/-- Witness for `apple_cpu_special_case`: an Apple CPU device exposing the
marker capability resolves to the special-case parameters even though the
overlay and built-in bases match; a device without the capability leaves
the candidate list unchanged. -/
theorem apple_cpu_special_case_witness :
    databaseConstruct true ⟨"CPU", "V", "Dev", "cl_APPLE_SetMemObjectDestructor"⟩ "K"
        Precision.Single
        [⟨"K", Precision.Single, [⟨"default", "default", [⟨"default", [("P", 2)]⟩]⟩]⟩]
        [⟨"K", Precision.Single, [⟨"default", "default", [⟨"default", [("P", 3)]⟩]⟩]⟩]
        [⟨"K", Precision.Single, [⟨"default", "default", [⟨"default", [("P", 1)]⟩]⟩]⟩]
      = Except.ok [("P", 1)] ∧
    candidateDatabases false ⟨"GPU", "V", "Dev", ""⟩ [] [] [] = [[], []] :=
  ⟨(apple_cpu_special_case.1 ⟨"CPU", "V", "Dev", "cl_APPLE_SetMemObjectDestructor"⟩ "K"
      Precision.Single
      [⟨"K", Precision.Single, [⟨"default", "default", [⟨"default", [("P", 2)]⟩]⟩]⟩]
      [⟨"K", Precision.Single, [⟨"default", "default", [⟨"default", [("P", 3)]⟩]⟩]⟩]
      [⟨"K", Precision.Single, [⟨"default", "default", [⟨"default", [("P", 1)]⟩]⟩]⟩]
      [("P", 1)] [("P", 2)] [("P", 3)]
      rfl (by decide) (by decide) (by decide) (by decide) (by decide)).2,
   apple_cpu_special_case.2 false ⟨"GPU", "V", "Dev", ""⟩ [] [] [] (by decide)⟩

theorem getDefines_data (ps : Parameters) :
    ∀ s : String,
      (ps.foldl
          (fun defines parameter =>
            defines ++ "#define " ++ parameter.1 ++ " " ++ paramToString parameter.2 ++ "\n")
          s).data
        = s.data ++ (ps.map (fun parameter =>
            ("#define " ++ parameter.1 ++ " " ++ paramToString parameter.2 ++ "\n").data)).flatten := by
  induction ps with
  | nil => intro s; simp
  | cons hd tl ih =>
    intro s
    simp only [List.foldl_cons, List.map_cons, List.flatten_cons]
    rw [ih]
    simp [String.data_append]

/-- C5: the defines-text accessor produces exactly one `#define NAME VALUE`
line per parameter, newline-terminated, in the parameter set's insertion
order (the accumulating fold equals the join of the per-parameter lines);
in particular for `{A: 16, B: 4}` it yields exactly
`"#define A 16\n#define B 4\n"`. -/
theorem get_defines_lines :
    (∀ ps : Parameters,
      GetDefines ps = String.join (ps.map (fun parameter =>
        "#define " ++ parameter.1 ++ " " ++ paramToString parameter.2 ++ "\n"))) ∧
    GetDefines [("A", 16), ("B", 4)] = "#define A 16\n#define B 4\n" := by
  constructor
  · intro ps
    apply String.ext
    rw [String.data_join, List.map_map]
    exact getDefines_data ps ""
  · decide

/-- C6: the Resolver is a total function returning an explicit `none`
exactly when no complete kernel → vendor → device chain exists in the
knowledge base, and the constructor throws `kDatabaseError` exactly when
every candidate knowledge base (overlay, optional special-case, built-in)
returns `none` for the target. -/
theorem resolver_none_iff_composer_exhausted :
    (∀ (this_kernel this_type this_vendor this_device : String)
        (this_precision : Precision) (dbs : List DatabaseEntry),
      Search this_kernel this_type this_vendor this_device this_precision dbs = none ↔
        ¬ hasChain this_kernel this_type this_vendor this_device this_precision dbs) ∧
    (∀ (apple_platform : Bool) (device : Device) (kernel_name : String)
        (precision : Precision) (overlay builtin fallback : List DatabaseEntry),
      databaseConstruct apple_platform device kernel_name precision overlay builtin fallback
          = Except.error StatusCode.kDatabaseError ↔
        ∀ db ∈ candidateDatabases apple_platform device overlay builtin fallback,
          Search kernel_name device.type (normalizeVendor device.vendor) device.name
            precision db = none) := by
  constructor
  · exact Search_eq_none_iff_not_hasChain
  · intro apple device k prec o b f
    rw [← searchAll_eq_none_iff, databaseConstruct_eq]
    cases hs : searchAll k device.type (normalizeVendor device.vendor) device.name prec
        (candidateDatabases apple device o b f) with
    | some p => simp
    | none => simp

/-- Witness for `resolver_none_iff_composer_exhausted` at concrete inputs. -/
theorem resolver_none_iff_composer_exhausted_witness :
    Search "K" "GPU" "V" "D" Precision.Single [] = none ∧
    databaseConstruct false ⟨"GPU", "V", "D", ""⟩ "K" Precision.Single [] [] []
      = Except.error StatusCode.kDatabaseError :=
  ⟨(resolver_none_iff_composer_exhausted.1 "K" "GPU" "V" "D" Precision.Single []).mpr
      (by simp [hasChain]),
   (resolver_none_iff_composer_exhausted.2 false ⟨"GPU", "V", "D", ""⟩ "K" Precision.Single
      [] [] []).mpr (by intro db hdb; simp [candidateDatabases] at hdb; subst hdb; rfl)⟩

/-- C7: in a vendor list where no record before the specific-vendor record
yields a result, the specific-vendor record (matching the requested vendor
and type, with a matching device) wins over any later `default` vendor
record: the scan returns the specific record's parameters. -/
theorem specific_vendor_before_default (this_type this_vendor this_device : String)
    (vs1 vs2 : List VendorRecord) (specific : VendorRecord) (ps : Parameters)
    (hbefore : searchVendors this_type this_vendor this_device vs1 = none)
    (hname : specific.name = this_vendor)
    (hmatch : vendorMatchB this_type this_vendor specific = true)
    (hdev : searchDevices this_device specific.devices = some ps)
    (hdefault : ∃ dflt ∈ vs2, dflt.name = kDeviceVendorAll) :
    searchVendors this_type this_vendor this_device (vs1 ++ specific :: vs2) = some ps := by
  rw [searchVendors_append_of_none _ _ _ _ _ hbefore]
  simp [searchVendors, hmatch, hdev]

/-- Witness for `specific_vendor_before_default`: an AMD-specific record
placed before the `default` vendor record wins for an AMD target. -/
theorem specific_vendor_before_default_witness :
    searchVendors "GPU" "AMD" "Dev"
        [⟨"AMD", "GPU", [⟨"default", [("WGS", 256)]⟩]⟩,
         ⟨"default", "default", [⟨"default", [("WGS", 64)]⟩]⟩]
      = some [("WGS", 256)] :=
  specific_vendor_before_default "GPU" "AMD" "Dev" []
    [⟨"default", "default", [⟨"default", [("WGS", 64)]⟩]⟩]
    ⟨"AMD", "GPU", [⟨"default", [("WGS", 256)]⟩]⟩ [("WGS", 256)]
    (by decide) rfl (by decide) (by decide)
    ⟨⟨"default", "default", [⟨"default", [("WGS", 64)]⟩]⟩, by simp, rfl⟩

/-- C8: vendor-name normalization is idempotent; it maps every key of the
alias table to its canonical short name and leaves every other string
unchanged (it is a total function with no error path). -/
theorem normalize_vendor_spec :
    (∀ v, normalizeVendor (normalizeVendor v) = normalizeVendor v) ∧
    (∀ raw canon, (raw, canon) ∈ kVendorNames → normalizeVendor raw = canon) ∧
    (∀ v, (∀ raw canon, (raw, canon) ∈ kVendorNames → v ≠ raw) → normalizeVendor v = v) := by
  have hfix : ∀ v, v ≠ "Intel(R) Corporation" → v ≠ "GenuineIntel" →
      v ≠ "Advanced Micro Devices, Inc." → v ≠ "NVIDIA Corporation" →
      normalizeVendor v = v := by
    intro v h1 h2 h3 h4
    simp [normalizeVendor, kVendorNames, h1, h2, h3, h4]
  refine ⟨?_, ?_, ?_⟩
  · intro v
    by_cases h1 : v = "Intel(R) Corporation"
    · subst h1; decide
    by_cases h2 : v = "GenuineIntel"
    · subst h2; decide
    by_cases h3 : v = "Advanced Micro Devices, Inc."
    · subst h3; decide
    by_cases h4 : v = "NVIDIA Corporation"
    · subst h4; decide
    rw [hfix v h1 h2 h3 h4, hfix v h1 h2 h3 h4]
  · intro raw canon hmem
    simp only [kVendorNames, List.mem_cons, List.not_mem_nil, or_false,
      Prod.mk.injEq] at hmem
    rcases hmem with ⟨rfl, rfl⟩ | ⟨rfl, rfl⟩ | ⟨rfl, rfl⟩ | ⟨rfl, rfl⟩ <;> decide
  · intro v hv
    exact hfix v
      (hv "Intel(R) Corporation" "Intel" (by simp [kVendorNames]))
      (hv "GenuineIntel" "Intel" (by simp [kVendorNames]))
      (hv "Advanced Micro Devices, Inc." "AMD" (by simp [kVendorNames]))
      (hv "NVIDIA Corporation" "NVIDIA" (by simp [kVendorNames]))

/-- Witness for `normalize_vendor_spec` at concrete vendor strings. -/
theorem normalize_vendor_spec_witness :
    normalizeVendor (normalizeVendor "NVIDIA Corporation")
        = normalizeVendor "NVIDIA Corporation" ∧
    normalizeVendor "NVIDIA Corporation" = "NVIDIA" ∧
    normalizeVendor "SomeVendor" = "SomeVendor" :=
  ⟨normalize_vendor_spec.1 "NVIDIA Corporation",
   normalize_vendor_spec.2.1 "NVIDIA Corporation" "NVIDIA" (by simp [kVendorNames]),
   normalize_vendor_spec.2.2 "SomeVendor" (by intro raw canon hmem; revert hmem; simp [kVendorNames]; rintro (⟨rfl, rfl⟩ | ⟨rfl, rfl⟩ | ⟨rfl, rfl⟩ | ⟨rfl, rfl⟩) <;> decide)⟩

/-- C9: a matched device record with an empty parameter set still counts
as a successful resolution: the candidate loop stops at the knowledge base
that produced it, and the constructor returns the empty parameter set no
matter what any lower-priority knowledge base contains. -/
theorem empty_parameter_set_success :
    (∀ (this_kernel this_type this_vendor this_device : String)
        (this_precision : Precision) (db : List DatabaseEntry)
        (rest : List (List DatabaseEntry)),
      Search this_kernel this_type this_vendor this_device this_precision db
          = some ([] : Parameters) →
      searchAll this_kernel this_type this_vendor this_device this_precision (db :: rest)
          = some ([] : Parameters)) ∧
    (∀ (apple_platform : Bool) (device : Device) (kernel_name : String)
        (precision : Precision) (overlay builtin fallback : List DatabaseEntry),
      (apple_platform && decide (device.type = "CPU")
          && strContainsSub device.capabilities appleExtension) = false →
      Search kernel_name device.type (normalizeVendor device.vendor) device.name precision
          overlay = some ([] : Parameters) →
      databaseConstruct apple_platform device kernel_name precision overlay builtin fallback
          = Except.ok ([] : Parameters)) := by
  constructor
  · intro k t v d p db rest h
    simp [searchAll, h]
  · intro apple device k prec o b f hspecial hov
    rw [databaseConstruct_eq]
    have hc : candidateDatabases apple device o b f = [o, b] := by
      simp [candidateDatabases, hspecial]
    rw [hc]
    simp [searchAll, hov, insertAll]

/-- Witness for `empty_parameter_set_success`: an overlay whose matching
device record carries an empty parameter set wins over a built-in base
with a non-empty match for the same target. -/
theorem empty_parameter_set_success_witness :
    searchAll "K" "GPU" "V" "D" Precision.Single
        [[⟨"K", Precision.Single, [⟨"default", "default", [⟨"default", []⟩]⟩]⟩],
         [⟨"K", Precision.Single, [⟨"default", "default", [⟨"default", [("P", 7)]⟩]⟩]⟩]]
      = some [] ∧
    databaseConstruct false ⟨"GPU", "V", "D", ""⟩ "K" Precision.Single
        [⟨"K", Precision.Single, [⟨"default", "default", [⟨"default", []⟩]⟩]⟩]
        [⟨"K", Precision.Single, [⟨"default", "default", [⟨"default", [("P", 7)]⟩]⟩]⟩]
        []
      = Except.ok [] :=
  ⟨empty_parameter_set_success.1 "K" "GPU" "V" "D" Precision.Single
      [⟨"K", Precision.Single, [⟨"default", "default", [⟨"default", []⟩]⟩]⟩]
      [[⟨"K", Precision.Single, [⟨"default", "default", [⟨"default", [("P", 7)]⟩]⟩]⟩]]
      (by decide),
   empty_parameter_set_success.2 false ⟨"GPU", "V", "D", ""⟩ "K" Precision.Single
      [⟨"K", Precision.Single, [⟨"default", "default", [⟨"default", []⟩]⟩]⟩]
      [⟨"K", Precision.Single, [⟨"default", "default", [⟨"default", [("P", 7)]⟩]⟩]⟩]
      [] (by decide) (by decide)⟩

/-- C10: searching an empty knowledge base returns `none` for every
target, so an empty overlay never changes the result: the candidate loop
simply proceeds to the next knowledge base. -/
theorem empty_database_resolution :
    (∀ (this_kernel this_type this_vendor this_device : String)
        (this_precision : Precision),
      Search this_kernel this_type this_vendor this_device this_precision [] = none) ∧
    (∀ (this_kernel this_type this_vendor this_device : String)
        (this_precision : Precision) (rest : List (List DatabaseEntry)),
      searchAll this_kernel this_type this_vendor this_device this_precision ([] :: rest)
        = searchAll this_kernel this_type this_vendor this_device this_precision rest) := by
  constructor
  · intro k t v d p
    rfl
  · intro k t v d p rest
    simp [searchAll, Search]

end clblast
